import Mathlib

/-!
Shallow embedding of `src/Architecture/DoorItInterior/script.py`: the
parametric attribute resolver (label → slot lookup with cache) and the
clamped/coerced write operations of `DoorItInteriorController`, plus the
batch orchestration `apply_door_settings`.

Python floats are modelled as rationals (`ℚ`); `float(x)` on an already
numeric value is the identity. Python `int(x)` truncates toward zero,
modelled by `ratTrunc`. Exceptions are modelled with an `Err` sum type
carried in `Except`; every operation returns the resulting controller
state alongside the outcome, so that state left behind by a raised
exception (cache population, untouched sink) is observable.
-/

namespace DoorIt

/-- Python `int(q)` on a rational: truncation toward zero. -/
def ratTrunc (q : ℚ) : ℤ := q.num.tdiv q.den

/-- Python `float(q)` on an already-numeric value: the identity coercion. -/
def float (q : ℚ) : ℚ := q

/-- Python `max(a, b)`: `a` when `b <= a`, else `b`. Agrees with the lattice
`max` (`pyMax_eq`); spelled out so that concrete inputs evaluate. -/
def pyMax (a b : ℚ) : ℚ := if b ≤ a then a else b

/-- Python `min(a, b)`: `a` when `a <= b`, else `b`. Agrees with the lattice
`min` (`pyMin_eq`). -/
def pyMin (a b : ℚ) : ℚ := if a ≤ b then a else b

/-- A node of the Geometry Nodes interface tree: display name, writable
identifier (absent on container/panel items), optional declared bounds,
and nested child items (`items_tree`). Absent attributes are `none`,
mirroring `getattr(item, ..., default)` probes in the script. -/
inductive Node where
  | mk (name : Option String) (identifier : Option String)
       (min_value : Option ℚ) (max_value : Option ℚ)
       (items_tree : List Node)

def Node.name : Node → Option String
  | .mk n _ _ _ _ => n

def Node.identifier : Node → Option String
  | .mk _ i _ _ _ => i

def Node.min_value : Node → Option ℚ
  | .mk _ _ mn _ _ => mn

def Node.max_value : Node → Option ℚ
  | .mk _ _ _ mx _ => mx

def Node.items_tree : Node → List Node
  | .mk _ _ _ _ c => c

mutual
/-- The generator `_iter_interface_items`: yield every item of the
iterable, each item followed by its (recursively flattened) nested
children — pre-order. -/
def iter_interface_items : List Node → List Node
  | [] => []
  | n :: ns => iterNode n ++ iter_interface_items ns

/-- One item of the generator: the item itself, then its flattened
`items_tree` children (an empty `items_tree` contributes nothing, matching
the falsy `if children:` guard). -/
def iterNode : Node → List Node
  | .mk nm idf mn mx cs => .mk nm idf mn mx cs :: iter_interface_items cs
end

/-- A dynamically-typed value written to the modifier's key–value sink or
recorded in a results dictionary. -/
inductive Value where
  | num (q : ℚ)
  | int (z : ℤ)
  | color (c : List ℚ)
  | str (s : String)
deriving DecidableEq

/-- Exceptions raised by the controller: `KeyError` for a missing socket
label, `ValueError` for a bad color arity. -/
inductive Err where
  | notFound (msg : String)
  | invalidArity (msg : String)
deriving DecidableEq

/-- Controller state: the interface tree and modifier name are fixed at
construction; `socket_cache` and the modifier's key–value `sink` evolve.
Python dict insertion is modelled by consing, lookup by first match. -/
structure Controller where
  objName : String
  modName : String
  tree : List Node
  socket_cache : List (String × Node)
  sink : List (String × Value)

/-- The message of the `KeyError` raised when a label is not found. -/
def not_found_msg (label modName : String) : String :=
  "Socket labeled " ++ label ++ " not found on modifier " ++ modName ++ "."

/-- Does an interface item match the searched label?
`getattr(item, "name", None) == label and hasattr(item, "identifier")`. -/
def matchesSocket (label : String) (n : Node) : Bool :=
  n.name == some label && n.identifier.isSome

/-- Resolution, `_get_interface_item`: return the cached slot when
present; otherwise scan the pre-order flattening for the first matching
item, cache it and return it; raise `KeyError` when nothing matches. -/
def get_interface_item (c : Controller) (label : String) :
    Except Err Node × Controller :=
  match c.socket_cache.lookup label with
  | some item => (.ok item, c)
  | none =>
    match (iter_interface_items c.tree).find? (matchesSocket label) with
    | some item =>
        (.ok item, { c with socket_cache := (label, item) :: c.socket_cache })
    | none => (.error (.notFound (not_found_msg label c.modName)), c)

/-- How many tree traversals a `_get_interface_item` call performs: none on
a cache hit, one otherwise (mirrors the branch structure of the function). -/
def get_interface_item_traversals (c : Controller) (label : String) : ℕ :=
  match c.socket_cache.lookup label with
  | some _ => 0
  | none => 1

/-- Clamped write `_set_numeric`: resolve, clamp with each bound only when
declared, write the clamped float to the sink under the slot identifier,
return it. (A matched item always carries an identifier; `getD` is never
reached on the paths produced by resolution.) -/
def set_numeric (c : Controller) (label : String) (value : ℚ) :
    Except Err ℚ × Controller :=
  match get_interface_item c label with
  | (.error e, c1) => (.error e, c1)
  | (.ok item, c1) =>
    let numeric_value := float value
    let numeric_value :=
      match item.min_value with
      | some m => pyMax numeric_value (float m)
      | none => numeric_value
    let numeric_value :=
      match item.max_value with
      | some m => pyMin numeric_value (float m)
      | none => numeric_value
    (.ok numeric_value,
     { c1 with sink := (item.identifier.getD "", Value.num numeric_value) :: c1.sink })

def set_width (c : Controller) (value : ℚ) : Except Err ℚ × Controller :=
  set_numeric c "Width" value

def set_height (c : Controller) (value : ℚ) : Except Err ℚ × Controller :=
  set_numeric c "Height" value

/-- Integer write `set_type`: coerce to int, then clamp where each
*undeclared* bound defaults to the coerced input itself
(`int(getattr(item, "min_value", int_value))`). -/
def set_type (c : Controller) (value : ℚ) : Except Err ℤ × Controller :=
  match get_interface_item c "Type" with
  | (.error e, c1) => (.error e, c1)
  | (.ok item, c1) =>
    let int_value := ratTrunc value
    let min_value :=
      match item.min_value with
      | some q => ratTrunc q
      | none => int_value
    let max_value :=
      match item.max_value with
      | some q => ratTrunc q
      | none => int_value
    let clamped_value := max min_value (min int_value max_value)
    (.ok clamped_value,
     { c1 with sink := (item.identifier.getD "", Value.int clamped_value) :: c1.sink })

/-- Randomized integer write `randomize_type`: bounds default to `0` and
to the minimum; the random source `rand` stands for `random.randint`. -/
def randomize_type (rand : ℤ → ℤ → ℤ) (c : Controller) :
    Except Err ℤ × Controller :=
  match get_interface_item c "Type" with
  | (.error e, c1) => (.error e, c1)
  | (.ok item, c1) =>
    let min_value :=
      match item.min_value with
      | some q => ratTrunc q
      | none => 0
    let max_value :=
      match item.max_value with
      | some q => ratTrunc q
      | none => min_value
    let choice := rand min_value max_value
    (.ok choice,
     { c1 with sink := (item.identifier.getD "", Value.int choice) :: c1.sink })

/-- The message of the `ValueError` raised on a bad color arity. -/
def invalid_arity_msg : String :=
  "Paint color must have 3 (RGB) or 4 (RGBA) components."

/-- Color write `set_paint_color`: resolve first, then validate arity
(3 or 4), then coerce the first four components to float, pad a 3-tuple
with alpha 1.0, write and return the 4-tuple. -/
def set_paint_color (c : Controller) (color : List ℚ) :
    Except Err (List ℚ) × Controller :=
  match get_interface_item c "Paint Color" with
  | (.error e, c1) => (.error e, c1)
  | (.ok item, c1) =>
    if color.length ∉ ([3, 4] : List ℕ) then
      (.error (.invalidArity invalid_arity_msg), c1)
    else
      let rgba := (color.take 4).map float
      let rgba := if rgba.length = 3 then rgba ++ [(1 : ℚ)] else rgba
      (.ok rgba,
       { c1 with sink := (item.identifier.getD "", Value.color rgba) :: c1.sink })

/-- Randomized color write `randomize_paint_color`: combine three drawn
samples with the given alpha, delegate the write to `set_paint_color`,
return the generated tuple. -/
def randomize_paint_color (randc : ℚ × ℚ × ℚ) (alpha : ℚ) (c : Controller) :
    Except Err (List ℚ) × Controller :=
  let rgba := [randc.1, randc.2.1, randc.2.2, float alpha]
  match set_paint_color c rgba with
  | (.error e, c1) => (.error e, c1)
  | (.ok _, c1) => (.ok rgba, c1)

/-- Batch orchestration `apply_door_settings`: sequential application. The results dict
starts with the object name; each provided input appends its applied value
in the fixed order width, height, type, color; an explicit `door_type` or
`paint_color` shadows the corresponding randomize flag (`elif`). Exceptions
abort the sequence. `trigger_rebuild` only touches the host dependency
graph and is out of scope. -/
def apply_door_settings (rand : ℤ → ℤ → ℤ) (randc : ℚ × ℚ × ℚ)
    (width height door_type : Option ℚ) (randomize_type_flag : Bool)
    (paint_color : Option (List ℚ)) (randomize_color : Bool) (alpha : ℚ)
    (c : Controller) :
    Except Err (List (String × Value)) × Controller :=
  let results : List (String × Value) := [("object", Value.str c.objName)]
  let stepW : Except Err (List (String × Value)) × Controller :=
    match width with
    | none => (.ok results, c)
    | some w =>
      match set_width c w with
      | (.error e, c1) => (.error e, c1)
      | (.ok r, c1) => (.ok (results ++ [("width", Value.num r)]), c1)
  match stepW with
  | (.error e, c1) => (.error e, c1)
  | (.ok res1, c1) =>
    let stepH : Except Err (List (String × Value)) × Controller :=
      match height with
      | none => (.ok res1, c1)
      | some h =>
        match set_height c1 h with
        | (.error e, c2) => (.error e, c2)
        | (.ok r, c2) => (.ok (res1 ++ [("height", Value.num r)]), c2)
    match stepH with
    | (.error e, c2) => (.error e, c2)
    | (.ok res2, c2) =>
      let stepT : Except Err (List (String × Value)) × Controller :=
        match door_type with
        | some d =>
          match set_type c2 d with
          | (.error e, c3) => (.error e, c3)
          | (.ok r, c3) => (.ok (res2 ++ [("type", Value.int r)]), c3)
        | none =>
          if randomize_type_flag then
            match randomize_type rand c2 with
            | (.error e, c3) => (.error e, c3)
            | (.ok r, c3) => (.ok (res2 ++ [("type", Value.int r)]), c3)
          else (.ok res2, c2)
      match stepT with
      | (.error e, c3) => (.error e, c3)
      | (.ok res3, c3) =>
        match paint_color with
        | some pc =>
          match set_paint_color c3 pc with
          | (.error e, c4) => (.error e, c4)
          | (.ok r, c4) => (.ok (res3 ++ [("paint_color", Value.color r)]), c4)
        | none =>
          if randomize_color then
            match randomize_paint_color randc alpha c3 with
            | (.error e, c4) => (.error e, c4)
            | (.ok r, c4) => (.ok (res3 ++ [("paint_color", Value.color r)]), c4)
          else (.ok res3, c3)

/-- The keys of the results record as determined by which inputs were
provided: "object" always, then one key per requested slot in the fixed
order width, height, type, color; an omitted input contributes no key. -/
def applyKeys (width height door_type : Option ℚ)
    (randomize_type_flag : Bool) (paint_color : Option (List ℚ))
    (randomize_color : Bool) : List String :=
  "object" ::
    ((if width.isSome then ["width"] else []) ++
     (if height.isSome then ["height"] else []) ++
     (if door_type.isSome || randomize_type_flag then ["type"] else []) ++
     (if paint_color.isSome || randomize_color then ["paint_color"] else []))

/-! Concrete fixtures mirroring the spec's scenarios: a tree with a
"Dimensions" panel (no identifier) holding bounded "Width" and "Height"
float slots, a bounded "Type" int slot, and an unbounded "Paint Color"
slot. -/

def widthNode : Node :=
  .mk (some "Width") (some "Socket_2") (some (mkRat 3 10)) (some 3) []

def heightNode : Node :=
  .mk (some "Height") (some "Socket_3") (some (mkRat 1 10)) (some 5) []

def dimensionsPanel : Node :=
  .mk (some "Dimensions") none none none [widthNode, heightNode]

def typeNode : Node :=
  .mk (some "Type") (some "Socket_4") (some 0) (some 4) []

def paintNode : Node :=
  .mk (some "Paint Color") (some "Socket_5") none none []

def demoCtrl : Controller :=
  { objName := "DoorIt_Example", modName := "GeometryNodes",
    tree := [dimensionsPanel, typeNode, paintNode],
    socket_cache := [], sink := [] }

/-- The demo controller after its first resolution of "Width". -/
def demoCtrlW : Controller :=
  { demoCtrl with socket_cache := [("Width", widthNode)] }

/-- The demo controller after its first resolution of "Type". -/
def demoCtrlT : Controller :=
  { demoCtrl with socket_cache := [("Type", typeNode)] }

/-- The demo controller after its first resolution of "Paint Color". -/
def demoCtrlP : Controller :=
  { demoCtrl with socket_cache := [("Paint Color", paintNode)] }

/-- An int slot with only a maximum declared (4), no minimum. -/
def typeMaxOnlyNode : Node :=
  .mk (some "Type") (some "Socket_9") none (some 4) []

def maxOnlyCtrl : Controller :=
  { objName := "Door2", modName := "GeometryNodes",
    tree := [typeMaxOnlyNode], socket_cache := [], sink := [] }

/-- A tree with duplicate "Width" labels: an identifier-less container
named "Width" whose nested child carries one, followed by a later sibling
also labeled "Width". -/
def widthInner : Node := .mk (some "Width") (some "Inner_id") none none []

def widthContainer : Node := .mk (some "Width") none none none [widthInner]

def widthOuter : Node := .mk (some "Width") (some "Outer_id") none none []

def dupCtrl : Controller :=
  { objName := "Door3", modName := "GeometryNodes",
    tree := [widthContainer, widthOuter], socket_cache := [], sink := [] }

/-! Helper lemmas shared by the claim theorems. -/

theorem pyMax_eq (a b : ℚ) : pyMax a b = max a b := by
  unfold pyMax
  rw [max_comm, max_def]

theorem pyMin_eq (a b : ℚ) : pyMin a b = min a b := by
  unfold pyMin
  rw [min_def]

theorem matchesSocket_iff (label : String) (n : Node) :
    matchesSocket label n = true ↔
      n.name = some label ∧ n.identifier.isSome = true := by
  simp [matchesSocket]

/-- Resolution only ever touches the socket cache: tree, sink and the
identifying fields of the controller come back unchanged. -/
theorem get_interface_item_state (c : Controller) (label : String)
    (r : Except Err Node) (c1 : Controller)
    (h : get_interface_item c label = (r, c1)) :
    c1.sink = c.sink ∧ c1.tree = c.tree ∧ c1.modName = c.modName ∧
      c1.objName = c.objName := by
  rcases hl : List.lookup label c.socket_cache with _ | it
  · rcases hf : (iter_interface_items c.tree).find? (matchesSocket label)
      with _ | it2
    · simp only [get_interface_item, hl, hf] at h
      cases h
      exact ⟨rfl, rfl, rfl, rfl⟩
    · simp only [get_interface_item, hl, hf] at h
      cases h
      exact ⟨rfl, rfl, rfl, rfl⟩
  · simp only [get_interface_item, hl] at h
    cases h
    exact ⟨rfl, rfl, rfl, rfl⟩

/-- A successful resolution leaves the label in the cache, bound to the
returned item. -/
theorem get_interface_item_ok_cached (c : Controller) (label : String)
    (item : Node) (c1 : Controller)
    (h : get_interface_item c label = (.ok item, c1)) :
    List.lookup label c1.socket_cache = some item := by
  rcases hl : List.lookup label c.socket_cache with _ | it
  · rcases hf : (iter_interface_items c.tree).find? (matchesSocket label)
      with _ | it2
    · simp [get_interface_item, hl, hf] at h
    · simp only [get_interface_item, hl, hf] at h
      cases h
      simp [List.lookup]
  · simp only [get_interface_item, hl] at h
    cases h
    exact hl

/-- Resolution never displaces an existing cache entry: whatever was
cached before a call is still cached, with the same item, afterwards. -/
theorem get_interface_item_cache_mono (c : Controller) (label2 : String)
    (r2 : Except Err Node) (c2 : Controller)
    (h : get_interface_item c label2 = (r2, c2))
    (label : String) (item : Node)
    (hl : List.lookup label c.socket_cache = some item) :
    List.lookup label c2.socket_cache = some item := by
  rcases hl2 : List.lookup label2 c.socket_cache with _ | it
  · rcases hf : (iter_interface_items c.tree).find? (matchesSocket label2)
      with _ | it2
    · simp only [get_interface_item, hl2, hf] at h
      cases h
      exact hl
    · simp only [get_interface_item, hl2, hf] at h
      cases h
      by_cases hed : label = label2
      · subst hed
        rw [hl] at hl2
        cases hl2
      · have hne : (label == label2) = false := beq_eq_false_iff_ne.mpr hed
        simpa [List.lookup, hne] using hl
  · simp only [get_interface_item, hl2] at h
    cases h
    exact hl

/-- A `find?` hit splits its list into a prefix of failures, the hit, and
a remainder. -/
theorem findSomeSplit {α : Type} (p : α → Bool) (l : List α) (a : α)
    (h : l.find? p = some a) :
    p a = true ∧ ∃ pre post, l = pre ++ a :: post ∧ ∀ m ∈ pre, p m = false := by
  induction l with
  | nil => simp [List.find?] at h
  | cons x xs ih =>
    rcases hp : p x with _ | _
    · rw [List.find?, hp] at h
      obtain ⟨hpa, pre, post, heq, hall⟩ := ih h
      refine ⟨hpa, x :: pre, post, by rw [heq, List.cons_append], ?_⟩
      intro m hm
      rcases List.mem_cons.mp hm with hm | hm
      · rwa [hm]
      · exact hall m hm
    · rw [List.find?, hp] at h
      cases h
      exact ⟨hp, [], xs, rfl, by simp⟩

/-- A successful `_set_numeric` prepends exactly one numeric entry to the
sink. -/
theorem set_numeric_ok_sink (c : Controller) (label : String) (v r : ℚ)
    (c1 : Controller) (h : set_numeric c label v = (.ok r, c1)) :
    ∃ k, c1.sink = (k, Value.num r) :: c.sink := by
  rcases hres : get_interface_item c label with ⟨er | item, cr⟩
  · simp [set_numeric, hres] at h
  · simp only [set_numeric, hres] at h
    cases h
    exact ⟨item.identifier.getD "",
      by rw [(get_interface_item_state c label (.ok item) cr hres).1]⟩

/-- A successful `randomize_type` prepends exactly one integer entry to
the sink. -/
theorem randomize_type_ok_sink (rand : ℤ → ℤ → ℤ) (c : Controller) (r : ℤ)
    (c1 : Controller) (h : randomize_type rand c = (.ok r, c1)) :
    ∃ k, c1.sink = (k, Value.int r) :: c.sink := by
  rcases hres : get_interface_item c "Type" with ⟨er | item, cr⟩
  · simp [randomize_type, hres] at h
  · simp only [randomize_type, hres] at h
    cases h
    exact ⟨item.identifier.getD "",
      by rw [(get_interface_item_state c "Type" (.ok item) cr hres).1]⟩

/-- C1: whenever a label resolves, `set_numeric` writes and returns a
clamped value: with both bounds declared and ordered the result lies in
`[min, max]` and equals the input whenever the input already does; an
absent bound imposes no constraint on that side (the input passes through
whenever it satisfies the declared bounds alone). -/
theorem set_numeric_clamps (c : Controller) (label : String) (item : Node)
    (c1 : Controller) (v : ℚ)
    (hres : get_interface_item c label = (.ok item, c1)) :
    ∃ r c2, set_numeric c label v = (.ok r, c2) ∧
      c2 = { c1 with
               sink := (item.identifier.getD "", Value.num r) :: c1.sink } ∧
      (∀ mn mx, item.min_value = some mn → item.max_value = some mx →
        mn ≤ mx → mn ≤ r ∧ r ≤ mx ∧ (mn ≤ v → v ≤ mx → r = v)) ∧
      (∀ mn, item.min_value = some mn → item.max_value = none →
        mn ≤ r ∧ (mn ≤ v → r = v)) ∧
      (∀ mx, item.min_value = none → item.max_value = some mx →
        r ≤ mx ∧ (v ≤ mx → r = v)) ∧
      (item.min_value = none → item.max_value = none → r = v) := by
  obtain ⟨nm, idf, mnv, mxv, cs⟩ := item
  rcases mnv with _ | mn <;> rcases mxv with _ | mx <;>
    simp only [set_numeric, hres, Node.min_value, Node.max_value, float]
  · refine ⟨v, _, rfl, rfl, ?_, ?_, ?_, ?_⟩
    · intro mn mx h
      cases h
    · intro mn h
      cases h
    · intro mx _ h
      cases h
    · intro _ _
      rfl
  · refine ⟨pyMin v mx, _, rfl, rfl, ?_, ?_, ?_, ?_⟩
    · intro mn mx' h
      cases h
    · intro mn h
      cases h
    · intro mx' _ h2
      cases h2
      rw [pyMin_eq]
      exact ⟨min_le_right v mx, fun hv => min_eq_left hv⟩
    · intro _ h
      cases h
  · refine ⟨pyMax v mn, _, rfl, rfl, ?_, ?_, ?_, ?_⟩
    · intro mn' mx h1 h2
      cases h2
    · intro mn' h1 _
      cases h1
      rw [pyMax_eq]
      exact ⟨le_max_right v mn, fun hv => max_eq_left hv⟩
    · intro mx' h1
      cases h1
    · intro h
      cases h
  · refine ⟨pyMin (pyMax v mn) mx, _, rfl, rfl, ?_, ?_, ?_, ?_⟩
    · intro mn' mx' h1 h2 hle
      cases h1
      cases h2
      rw [pyMin_eq, pyMax_eq]
      refine ⟨le_min (le_max_right v mn) hle, min_le_right _ _, ?_⟩
      intro h1v h2v
      rw [max_eq_left h1v, min_eq_left h2v]
    · intro mn' h1 h2
      cases h2
    · intro mx' h1
      cases h1
    · intro h
      cases h

/-- C1 witness: scenario 1 — slot "Width" with bounds [0.3, 3.0] resolves,
`set_numeric("Width", 10)` returns 3 (in bounds) and the sink records 3
under the slot identifier `Socket_2`. -/
theorem set_numeric_clamps_witness :
    get_interface_item demoCtrl "Width" = (.ok widthNode, demoCtrlW) ∧
    mkRat 3 10 ≤ (3 : ℚ) ∧
    set_numeric demoCtrl "Width" 10 =
      (.ok 3, { demoCtrlW with sink := [("Socket_2", Value.num 3)] }) ∧
    (∃ r c2, set_numeric demoCtrl "Width" 10 = (.ok r, c2) ∧
      mkRat 3 10 ≤ r ∧ r ≤ 3) := by
  refine ⟨rfl, by decide, rfl, ?_⟩
  obtain ⟨r, c2, heq, hc2, hboth, -, -, -⟩ :=
    set_numeric_clamps demoCtrl "Width" widthNode demoCtrlW 10 rfl
  obtain ⟨h1, h2, -⟩ := hboth (mkRat 3 10) 3 rfl rfl (by decide)
  exact ⟨r, c2, heq, h1, h2⟩

/-- C2 counterexample: on a slot with only a maximum declared (4) and
input 10, the undeclared minimum defaults to the coerced input, so
`set_type` returns and writes 10 — exceeding the declared maximum, against
the claim that the returned integer never exceeds a declared maximum when
only the maximum is declared. -/
theorem set_type_max_only_unenforced :
    typeMaxOnlyNode.min_value = none ∧
    typeMaxOnlyNode.max_value = some 4 ∧
    set_type maxOnlyCtrl 10 =
      (.ok 10,
       { maxOnlyCtrl with
           socket_cache := [("Type", typeMaxOnlyNode)],
           sink := [("Socket_9", Value.int 10)] }) ∧
    ¬((10 : ℤ) ≤ 4) :=
  ⟨rfl, rfl, rfl, by decide⟩

/-- C2 amended: `set_type` coerces to an integer and clamps with each
undeclared bound defaulting to the coerced input: with both bounds
declared the result is the full clamp (scenario 2 follows); with only a
minimum declared the minimum is enforced and the absent maximum does not
constrain; with the minimum undeclared the result is the coerced input
itself, so a declared maximum alone does not cap inputs above it. -/
theorem set_type_clamp (c : Controller) (item : Node) (c1 : Controller)
    (v : ℚ) (hres : get_interface_item c "Type" = (.ok item, c1)) :
    ∃ r c2, set_type c v = (.ok r, c2) ∧
      c2 = { c1 with
               sink := (item.identifier.getD "", Value.int r) :: c1.sink } ∧
      (∀ qmn qmx, item.min_value = some qmn → item.max_value = some qmx →
        r = max (ratTrunc qmn) (min (ratTrunc v) (ratTrunc qmx))) ∧
      (∀ qmn, item.min_value = some qmn → item.max_value = none →
        r = max (ratTrunc qmn) (ratTrunc v)) ∧
      (item.min_value = none → r = ratTrunc v) := by
  obtain ⟨nm, idf, mnv, mxv, cs⟩ := item
  rcases mnv with _ | mn <;> rcases mxv with _ | mx <;>
    simp only [set_type, hres, Node.min_value, Node.max_value]
  · refine ⟨_, _, rfl, rfl, ?_, ?_, ?_⟩
    · intro qmn qmx h
      cases h
    · intro qmn h
      cases h
    · intro _
      rw [min_self, max_self]
  · refine ⟨_, _, rfl, rfl, ?_, ?_, ?_⟩
    · intro qmn qmx h
      cases h
    · intro qmn h
      cases h
    · intro _
      exact max_eq_left (min_le_left _ _)
  · refine ⟨_, _, rfl, rfl, ?_, ?_, ?_⟩
    · intro qmn qmx _ h
      cases h
    · intro qmn h _
      cases h
      rw [min_self]
    · intro h
      cases h
  · refine ⟨_, _, rfl, rfl, ?_, ?_, ?_⟩
    · intro qmn qmx h1 h2
      cases h1
      cases h2
      rfl
    · intro qmn _ h
      cases h
    · intro h
      cases h

/-- C2 witness: scenario 2 — slot "Type" with bounds [0, 4] resolves and
`set_type(-2)` clamps to 0, written under `Socket_4`. -/
theorem set_type_clamp_witness :
    get_interface_item demoCtrl "Type" = (.ok typeNode, demoCtrlT) ∧
    set_type demoCtrl (-2) =
      (.ok 0, { demoCtrlT with sink := [("Socket_4", Value.int 0)] }) ∧
    (∃ r c2, set_type demoCtrl (-2) = (.ok r, c2) ∧
       r = max (ratTrunc 0) (min (ratTrunc (-2)) (ratTrunc 4))) := by
  refine ⟨rfl, rfl, ?_⟩
  obtain ⟨r, c2, heq, -, hboth, -, -⟩ :=
    set_type_clamp demoCtrl typeNode demoCtrlT (-2) rfl
  exact ⟨r, c2, heq, hboth 0 4 rfl rfl⟩

/-- C3: resolution is idempotent — a successful resolve leaves the label
cached bound to the returned item, a second resolve with the same label
returns the structurally identical item with no state change at all, the
tree is traversed at most once across the two calls, and no later
resolution (of any label) mutates or displaces the cached slot. -/
theorem resolve_idempotent (c : Controller) (label : String) (item : Node)
    (c1 : Controller)
    (h : get_interface_item c label = (.ok item, c1)) :
    get_interface_item c1 label = (.ok item, c1) ∧
    List.lookup label c1.socket_cache = some item ∧
    get_interface_item_traversals c label +
      get_interface_item_traversals c1 label ≤ 1 ∧
    (∀ label2 r2 c2, get_interface_item c1 label2 = (r2, c2) →
      List.lookup label c2.socket_cache = some item) := by
  have hcached := get_interface_item_ok_cached c label item c1 h
  have hsecond : get_interface_item c1 label = (.ok item, c1) := by
    simp [get_interface_item, hcached]
  refine ⟨hsecond, hcached, ?_, ?_⟩
  · have h2 : get_interface_item_traversals c1 label = 0 := by
      simp [get_interface_item_traversals, hcached]
    have h1 : get_interface_item_traversals c label ≤ 1 := by
      cases hl : List.lookup label c.socket_cache <;>
        simp [get_interface_item_traversals, hl]
    omega
  · intro label2 r2 c2 h22
    exact get_interface_item_cache_mono c1 label2 r2 c2 h22 label item hcached

/-- C3 witness: resolving "Width" on the demo controller twice returns the
identical slot both times, with no second traversal. -/
theorem resolve_idempotent_witness :
    get_interface_item demoCtrl "Width" = (.ok widthNode, demoCtrlW) ∧
    get_interface_item demoCtrlW "Width" = (.ok widthNode, demoCtrlW) ∧
    get_interface_item_traversals demoCtrl "Width" +
      get_interface_item_traversals demoCtrlW "Width" ≤ 1 := by
  have h := resolve_idempotent demoCtrl "Width" widthNode demoCtrlW rfl
  exact ⟨rfl, h.1, h.2.2.1⟩

/-- C4: on a cache miss, a successful resolve returns the first node of
the pre-order flattening (each parent immediately before its recursively
flattened children) whose name equals the label and which carries an
identifier: every node strictly before it in the flattening has a
different name or no identifier — so identifier-less container nodes are
traversed but never matched, and the first of duplicate labels wins. -/
theorem resolve_first_pre_order (c : Controller) (label : String)
    (item : Node) (c1 : Controller)
    (hmiss : List.lookup label c.socket_cache = none)
    (h : get_interface_item c label = (.ok item, c1)) :
    item.name = some label ∧ item.identifier.isSome = true ∧
    ∃ pre post, iter_interface_items c.tree = pre ++ item :: post ∧
      ∀ m ∈ pre, ¬(m.name = some label ∧ m.identifier.isSome = true) := by
  rcases hf : (iter_interface_items c.tree).find? (matchesSocket label)
    with _ | it
  · simp [get_interface_item, hmiss, hf] at h
  · simp only [get_interface_item, hmiss, hf] at h
    cases h
    obtain ⟨hp, pre, post, heq, hall⟩ := findSomeSplit _ _ _ hf
    obtain ⟨hname, hid⟩ := (matchesSocket_iff label item).mp hp
    refine ⟨hname, hid, pre, post, heq, ?_⟩
    intro m hm hcontra
    have hmt := (matchesSocket_iff label m).mpr hcontra
    rw [hall m hm] at hmt
    cases hmt

/-- C4 witness: in a tree with an identifier-less "Width" container whose
nested child and a later sibling both carry the label, resolution returns
the nested child — the first identifier-carrying match in pre-order. -/
theorem resolve_first_pre_order_witness :
    List.lookup "Width" dupCtrl.socket_cache = none ∧
    get_interface_item dupCtrl "Width" =
      (.ok widthInner,
       { dupCtrl with socket_cache := [("Width", widthInner)] }) ∧
    iter_interface_items dupCtrl.tree =
      [widthContainer, widthInner, widthOuter] ∧
    (widthInner.name = some "Width" ∧ widthInner.identifier.isSome = true ∧
     ∃ pre post, iter_interface_items dupCtrl.tree = pre ++ widthInner :: post ∧
       ∀ m ∈ pre, ¬(m.name = some "Width" ∧ m.identifier.isSome = true)) := by
  refine ⟨rfl, rfl, rfl, ?_⟩
  exact resolve_first_pre_order dupCtrl "Width" widthInner
    { dupCtrl with socket_cache := [("Width", widthInner)] } rfl rfl

/-- C5: for a label absent from the whole tree (and not cached), every
operation raises the not-found error, whose message contains the label,
and returns the controller unchanged — in particular the sink is left
untouched. `set_type`, `randomize_type` and `set_paint_color` search their
fixed labels, so their statements are conditional on the absent label
being theirs. -/
theorem absent_label_raises (c : Controller) (label : String) (v : ℚ)
    (col : List ℚ) (rand : ℤ → ℤ → ℤ)
    (hc : List.lookup label c.socket_cache = none)
    (ht : (iter_interface_items c.tree).find? (matchesSocket label) = none) :
    get_interface_item c label =
      (.error (.notFound (not_found_msg label c.modName)), c) ∧
    (∃ pre post, not_found_msg label c.modName = pre ++ label ++ post) ∧
    set_numeric c label v =
      (.error (.notFound (not_found_msg label c.modName)), c) ∧
    (label = "Type" →
      set_type c v =
        (.error (.notFound (not_found_msg label c.modName)), c) ∧
      randomize_type rand c =
        (.error (.notFound (not_found_msg label c.modName)), c)) ∧
    (label = "Paint Color" →
      set_paint_color c col =
        (.error (.notFound (not_found_msg label c.modName)), c)) := by
  have hres : get_interface_item c label =
      (.error (.notFound (not_found_msg label c.modName)), c) := by
    simp [get_interface_item, hc, ht]
  refine ⟨hres, ?_, ?_, ?_, ?_⟩
  · exact ⟨"Socket labeled ", " not found on modifier " ++ c.modName ++ ".",
      by simp [not_found_msg, String.append_assoc]⟩
  · simp [set_numeric, hres]
  · rintro rfl
    exact ⟨by simp [set_type, hres], by simp [randomize_type, hres]⟩
  · rintro rfl
    simp [set_paint_color, hres]

/-- C5 witness: a tree with no "Type" slot — resolution and `set_type`
both raise the not-found error, the message names "Type", and the
controller (hence the sink) is returned unchanged. -/
theorem absent_label_raises_witness :
    List.lookup "Type" dupCtrl.socket_cache = none ∧
    (iter_interface_items dupCtrl.tree).find? (matchesSocket "Type") = none ∧
    get_interface_item dupCtrl "Type" =
      (.error (.notFound (not_found_msg "Type" dupCtrl.modName)), dupCtrl) ∧
    set_type dupCtrl 5 =
      (.error (.notFound (not_found_msg "Type" dupCtrl.modName)), dupCtrl) ∧
    (∃ pre post,
      not_found_msg "Type" dupCtrl.modName = pre ++ "Type" ++ post) := by
  have h := absent_label_raises dupCtrl "Type" 5 [1, 2] (fun a _ => a) rfl rfl
  exact ⟨rfl, rfl, h.1, (h.2.2.2.1 rfl).1, h.2.1⟩

/-- C6: when the "Paint Color" slot resolves but the input's length is
neither 3 nor 4, `set_paint_color` raises the arity error and the sink is
unchanged. -/
theorem set_paint_color_bad_arity (c : Controller) (item : Node)
    (c1 : Controller) (col : List ℚ)
    (hres : get_interface_item c "Paint Color" = (.ok item, c1))
    (hlen : col.length ∉ ([3, 4] : List ℕ)) :
    set_paint_color c col = (.error (.invalidArity invalid_arity_msg), c1) ∧
    c1.sink = c.sink := by
  refine ⟨?_, (get_interface_item_state c "Paint Color" (.ok item) c1 hres).1⟩
  simp [set_paint_color, hres, hlen]

/-- C6 witness: a 2-component input on the demo tree raises the arity
error and leaves the sink empty as before. -/
theorem set_paint_color_bad_arity_witness :
    get_interface_item demoCtrl "Paint Color" = (.ok paintNode, demoCtrlP) ∧
    (([(1 : ℚ), 2] : List ℚ).length ∉ ([3, 4] : List ℕ)) ∧
    set_paint_color demoCtrl [1, 2] =
      (.error (.invalidArity invalid_arity_msg), demoCtrlP) ∧
    demoCtrlP.sink = demoCtrl.sink := by
  have h := set_paint_color_bad_arity demoCtrl paintNode demoCtrlP [1, 2]
    rfl (by decide)
  exact ⟨rfl, by decide, h.1, h.2⟩

/-- C7: a 3-component input is written and returned with alpha 1.0
appended; a 4-component input is written and returned unchanged (float
coercion is the identity on numerics); no clamping is applied — the
components are arbitrary rationals, including values outside [0, 1]. -/
theorem set_paint_color_rgb_rgba (c : Controller) (item : Node)
    (c1 : Controller)
    (hres : get_interface_item c "Paint Color" = (.ok item, c1)) :
    (∀ r g b, set_paint_color c [r, g, b] =
      (.ok [r, g, b, 1],
       { c1 with sink := (item.identifier.getD "",
                          Value.color [r, g, b, 1]) :: c1.sink })) ∧
    (∀ r g b a, set_paint_color c [r, g, b, a] =
      (.ok [r, g, b, a],
       { c1 with sink := (item.identifier.getD "",
                          Value.color [r, g, b, a]) :: c1.sink })) := by
  constructor
  · intro r g b
    simp [set_paint_color, hres, float]
  · intro r g b a
    simp [set_paint_color, hres, float]

/-- C7 witness: scenario 3 — `set_color("Paint Color", (0.2, 0.4, 0.9))`
returns `(0.2, 0.4, 0.9, 1.0)`; a 4-component input with components
outside [0, 1] passes through unchanged. -/
theorem set_paint_color_rgb_rgba_witness :
    get_interface_item demoCtrl "Paint Color" = (.ok paintNode, demoCtrlP) ∧
    set_paint_color demoCtrl [mkRat 2 10, mkRat 4 10, mkRat 9 10] =
      (.ok [mkRat 2 10, mkRat 4 10, mkRat 9 10, 1],
       { demoCtrlP with
           sink := [("Socket_5",
                     Value.color [mkRat 2 10, mkRat 4 10, mkRat 9 10, 1])] }) ∧
    set_paint_color demoCtrl [5, -2, 7, mkRat 1 2] =
      (.ok [5, -2, 7, mkRat 1 2],
       { demoCtrlP with
           sink := [("Socket_5", Value.color [5, -2, 7, mkRat 1 2])] }) := by
  have h := set_paint_color_rgb_rgba demoCtrl paintNode demoCtrlP rfl
  exact ⟨rfl, h.1 _ _ _, h.2 _ _ _ _⟩

/-- C8 counterexample: a 5-component input is not truncated and written —
`set_paint_color` raises the arity error before the slice is ever taken,
and the sink stays empty. -/
theorem long_color_input_rejected :
    ([(1 : ℚ), 2, 3, 4, 5] : List ℚ).length = 5 ∧
    set_paint_color demoCtrl [1, 2, 3, 4, 5] =
      (.error (.invalidArity invalid_arity_msg), demoCtrlP) ∧
    demoCtrlP.sink = [] ∧
    List.lookup "Socket_5" demoCtrlP.sink = none :=
  ⟨rfl, rfl, rfl, rfl⟩

/-- C8 amended: every color input with more than 4 components is rejected
with the arity error (the length test precedes the slice, so the
truncation step is unreachable for such inputs) and no write occurs. -/
theorem set_paint_color_long_input (c : Controller) (item : Node)
    (c1 : Controller) (col : List ℚ)
    (hres : get_interface_item c "Paint Color" = (.ok item, c1))
    (hlen : 4 < col.length) :
    set_paint_color c col = (.error (.invalidArity invalid_arity_msg), c1) ∧
    c1.sink = c.sink := by
  have hmem : col.length ∉ ([3, 4] : List ℕ) := by
    intro hmem
    simp only [List.mem_cons, List.mem_singleton] at hmem
    rcases hmem with h | h
    · omega
    · rcases h with h | h
      · omega
      · simp at h
  refine ⟨?_, (get_interface_item_state c "Paint Color" (.ok item) c1 hres).1⟩
  simp [set_paint_color, hres, hmem]

/-- C8 amended witness: a 6-component input raises the arity error with
the sink unchanged. -/
theorem set_paint_color_long_input_witness :
    get_interface_item demoCtrl "Paint Color" = (.ok paintNode, demoCtrlP) ∧
    4 < ([(1 : ℚ), 1, 1, 1, 1, 1] : List ℚ).length ∧
    set_paint_color demoCtrl [1, 1, 1, 1, 1, 1] =
      (.error (.invalidArity invalid_arity_msg), demoCtrlP) ∧
    demoCtrlP.sink = demoCtrl.sink := by
  have h := set_paint_color_long_input demoCtrl paintNode demoCtrlP
    [1, 1, 1, 1, 1, 1] rfl (by decide)
  exact ⟨rfl, by decide, h.1, h.2⟩

/-- C9 counterexample: batch apply with width 1.0 and randomize_type on
(no color arguments) returns a record whose keys are "object", "width",
"type" — the record starts with the object-name entry, so it does not
contain entries for width and type only. -/
theorem apply_summary_has_object_entry :
    apply_door_settings (fun a _ => a) (0, 0, 0) (some 1) none none true
        none false 1 demoCtrl =
      (.ok [("object", Value.str "DoorIt_Example"), ("width", Value.num 1),
            ("type", Value.int 0)],
       { demoCtrl with
           socket_cache := [("Type", typeNode), ("Width", widthNode)],
           sink := [("Socket_4", Value.int 0), ("Socket_2", Value.num 1)] }) ∧
    (["object", "width", "type"] : List String) ≠ ["width", "type"] :=
  ⟨rfl, by decide⟩

/-- C9 amended: the batch result record always starts with the
object-name entry and otherwise contains exactly one entry per provided
input, in the fixed key order width, height, type, color — so omitted
inputs produce no entry; an explicit `door_type` or `paint_color` makes
the corresponding randomize flag irrelevant (explicit values take
precedence over randomization for the same slot); and in the scenario
configuration (explicit width, randomize type, no color arguments) the
record is exactly object/width/type in that order and the sink gains no
color entry. -/
theorem apply_door_settings_record (rand : ℤ → ℤ → ℤ) (randc : ℚ × ℚ × ℚ)
    (width height door_type : Option ℚ) (flag : Bool)
    (paint_color : Option (List ℚ)) (rc : Bool) (alpha : ℚ)
    (c : Controller) :
    (∀ res c2,
      apply_door_settings rand randc width height door_type flag paint_color
          rc alpha c = (.ok res, c2) →
      res.map Prod.fst =
        applyKeys width height door_type flag paint_color rc) ∧
    (∀ d, apply_door_settings rand randc width height (some d) true
            paint_color rc alpha c =
          apply_door_settings rand randc width height (some d) false
            paint_color rc alpha c) ∧
    (∀ p, apply_door_settings rand randc width height door_type flag
            (some p) true alpha c =
          apply_door_settings rand randc width height door_type flag
            (some p) false alpha c) ∧
    (∀ w wr c1 t c2, width = some w → height = none → door_type = none →
      flag = true → paint_color = none → rc = false →
      set_width c w = (.ok wr, c1) →
      randomize_type rand c1 = (.ok t, c2) →
      apply_door_settings rand randc width height door_type flag paint_color
          rc alpha c =
        (.ok [("object", Value.str c.objName), ("width", Value.num wr),
              ("type", Value.int t)], c2) ∧
      (∀ k lv, (k, Value.color lv) ∈ c2.sink →
        (k, Value.color lv) ∈ c.sink)) := by
  refine ⟨?_, ?_, ?_, ?_⟩
  · intro res c2 h
    rcases width with _ | w <;> rcases height with _ | hh <;>
      rcases door_type with _ | d <;> rcases flag with _ | _ <;>
      rcases paint_color with _ | p <;> rcases rc with _ | _ <;>
      simp only [apply_door_settings, eq_self_iff_true, if_true,
        Bool.false_eq_true, if_false] at h <;>
      (try (rcases hs1 : set_width c w with ⟨e1 | r1, cA⟩ <;>
        simp only [hs1] at h)) <;>
      (try (rcases hs2 : set_height c hh with ⟨e2 | r2, cB⟩ <;>
        simp only [hs2] at h)) <;>
      (try (rcases hs2 : set_height cA hh with ⟨e2 | r2, cB⟩ <;>
        simp only [hs2] at h)) <;>
      (try (rcases hs3 : set_type c d with ⟨e3 | r3, cC⟩ <;>
        simp only [hs3] at h)) <;>
      (try (rcases hs3 : set_type cA d with ⟨e3 | r3, cC⟩ <;>
        simp only [hs3] at h)) <;>
      (try (rcases hs3 : set_type cB d with ⟨e3 | r3, cC⟩ <;>
        simp only [hs3] at h)) <;>
      (try (rcases hs3 : randomize_type rand c with ⟨e3 | r3, cC⟩ <;>
        simp only [hs3] at h)) <;>
      (try (rcases hs3 : randomize_type rand cA with ⟨e3 | r3, cC⟩ <;>
        simp only [hs3] at h)) <;>
      (try (rcases hs3 : randomize_type rand cB with ⟨e3 | r3, cC⟩ <;>
        simp only [hs3] at h)) <;>
      (try (rcases hs4 : set_paint_color c p with ⟨e4 | r4, cD⟩ <;>
        simp only [hs4] at h)) <;>
      (try (rcases hs4 : set_paint_color cA p with ⟨e4 | r4, cD⟩ <;>
        simp only [hs4] at h)) <;>
      (try (rcases hs4 : set_paint_color cB p with ⟨e4 | r4, cD⟩ <;>
        simp only [hs4] at h)) <;>
      (try (rcases hs4 : set_paint_color cC p with ⟨e4 | r4, cD⟩ <;>
        simp only [hs4] at h)) <;>
      (try (rcases hs4 : randomize_paint_color randc alpha c
          with ⟨e4 | r4, cD⟩ <;> simp only [hs4] at h)) <;>
      (try (rcases hs4 : randomize_paint_color randc alpha cA
          with ⟨e4 | r4, cD⟩ <;> simp only [hs4] at h)) <;>
      (try (rcases hs4 : randomize_paint_color randc alpha cB
          with ⟨e4 | r4, cD⟩ <;> simp only [hs4] at h)) <;>
      (try (rcases hs4 : randomize_paint_color randc alpha cC
          with ⟨e4 | r4, cD⟩ <;> simp only [hs4] at h))
    all_goals obtain ⟨rfl, rfl⟩ := h
    all_goals simp [applyKeys]
  · intro d
    rfl
  · intro p
    rfl
  · intro w wr c1 t c2 hW hH hD hF hP hR hw ht
    subst hW
    subst hH
    subst hD
    subst hF
    subst hP
    subst hR
    obtain ⟨k1, hs1⟩ := set_numeric_ok_sink c "Width" w wr c1 hw
    obtain ⟨k2, hs2⟩ := randomize_type_ok_sink rand c1 t c2 ht
    have hw2 : set_numeric c "Width" w = (.ok wr, c1) := hw
    refine ⟨by simp [apply_door_settings, set_width, hw2, ht], ?_⟩
    intro k lv hmem
    rw [hs2] at hmem
    rcases List.mem_cons.mp hmem with hx | hmem2
    · simp at hx
    · rw [hs1] at hmem2
      rcases List.mem_cons.mp hmem2 with hx | hx
      · simp at hx
      · exact hx

/-- C9 amended witness: width 2 with randomize-type (random source picking
the upper bound) yields the record object/width/type in order, the sink
holding only the width and type writes, and the record's keys match the
provided-input characterization. -/
theorem apply_door_settings_record_witness :
    set_width demoCtrl 2 =
      (.ok 2, { demoCtrl with socket_cache := [("Width", widthNode)],
                              sink := [("Socket_2", Value.num 2)] }) ∧
    randomize_type (fun _ b => b)
        { demoCtrl with socket_cache := [("Width", widthNode)],
                        sink := [("Socket_2", Value.num 2)] } =
      (.ok 4,
       { demoCtrl with
           socket_cache := [("Type", typeNode), ("Width", widthNode)],
           sink := [("Socket_4", Value.int 4), ("Socket_2", Value.num 2)] }) ∧
    apply_door_settings (fun _ b => b) (0, 0, 0) (some 2) none none true
        none false 1 demoCtrl =
      (.ok [("object", Value.str "DoorIt_Example"), ("width", Value.num 2),
            ("type", Value.int 4)],
       { demoCtrl with
           socket_cache := [("Type", typeNode), ("Width", widthNode)],
           sink := [("Socket_4", Value.int 4), ("Socket_2", Value.num 2)] }) ∧
    ([("object", Value.str "DoorIt_Example"), ("width", Value.num 2),
      ("type", Value.int 4)] : List (String × Value)).map Prod.fst =
      applyKeys (some 2) none none true none false := by
  have h := apply_door_settings_record (fun _ b => b) (0, 0, 0) (some 2)
    none none true none false 1 demoCtrl
  have h4 := h.2.2.2 2 2
    { demoCtrl with socket_cache := [("Width", widthNode)],
                    sink := [("Socket_2", Value.num 2)] }
    4
    { demoCtrl with
        socket_cache := [("Type", typeNode), ("Width", widthNode)],
        sink := [("Socket_4", Value.int 4), ("Socket_2", Value.num 2)] }
    rfl rfl rfl rfl rfl rfl rfl rfl
  exact ⟨rfl, rfl, h4.1, h.1 _ _ h4.1⟩

/-- C10: `set_paint_color` resolves (and caches) before validating arity —
when the "Paint Color" slot is absent it raises the not-found error even
for inputs whose length is neither 3 nor 4, and when the slot resolves an
arity failure still leaves the resolution in the cache. -/
theorem set_paint_color_resolves_before_arity :
    (∀ c col, List.lookup "Paint Color" c.socket_cache = none →
      (iter_interface_items c.tree).find? (matchesSocket "Paint Color") =
        none →
      set_paint_color c col =
        (.error (.notFound (not_found_msg "Paint Color" c.modName)), c)) ∧
    (∀ c col item c1,
      get_interface_item c "Paint Color" = (.ok item, c1) →
      col.length ∉ ([3, 4] : List ℕ) →
      set_paint_color c col =
        (.error (.invalidArity invalid_arity_msg), c1) ∧
      List.lookup "Paint Color" c1.socket_cache = some item) := by
  constructor
  · intro c col hc ht
    have hres : get_interface_item c "Paint Color" =
        (.error (.notFound (not_found_msg "Paint Color" c.modName)), c) := by
      simp [get_interface_item, hc, ht]
    simp [set_paint_color, hres]
  · intro c col item c1 hres hlen
    exact ⟨by simp [set_paint_color, hres, hlen],
      get_interface_item_ok_cached c "Paint Color" item c1 hres⟩

/-- C10 witness: on a tree without "Paint Color" a 5-component input gets
the not-found error, not the arity error; on the demo tree a 2-component
input fails with the arity error yet the resolution is cached. -/
theorem set_paint_color_resolves_before_arity_witness :
    List.lookup "Paint Color" dupCtrl.socket_cache = none ∧
    (iter_interface_items dupCtrl.tree).find? (matchesSocket "Paint Color") =
      none ∧
    set_paint_color dupCtrl [1, 1, 1, 1, 1] =
      (.error (.notFound (not_found_msg "Paint Color" dupCtrl.modName)),
       dupCtrl) ∧
    get_interface_item demoCtrl "Paint Color" = (.ok paintNode, demoCtrlP) ∧
    (([(1 : ℚ), 1] : List ℚ).length ∉ ([3, 4] : List ℕ)) ∧
    set_paint_color demoCtrl [1, 1] =
      (.error (.invalidArity invalid_arity_msg), demoCtrlP) ∧
    List.lookup "Paint Color" demoCtrlP.socket_cache = some paintNode := by
  have h1 := set_paint_color_resolves_before_arity.1 dupCtrl
    [1, 1, 1, 1, 1] rfl rfl
  have h2 := set_paint_color_resolves_before_arity.2 demoCtrl [1, 1]
    paintNode demoCtrlP rfl (by decide)
  exact ⟨rfl, rfl, h1, rfl, by decide, h2.1, h2.2⟩

end DoorIt
